import Mathlib

/-!
Shallow embedding of `src/preservationist/identification.py`: the per-song
data model (`Song`, `Artwork`), the album aggregate (`Album`) with its three
diagnostic message chains, and the tag-extraction pipeline (`_parse_song`,
`_parse_album`).  Python strings become `String`, optional tag values become
`Option String`, stateful appends become functional record updates, and the
two sources of fatal failure in the Python code (uncaught assertions and
attribute errors) are made explicit: `_parse_song`/`_parse_album` return
`Except String _` (an `Except.error` models an uncaught exception aborting
the scan) and `Album.naming_message` returns `Option String` (`none` models
an uncaught `AttributeError`).  The external libraries (mutagen, PIL) are
modelled as oracles: `MutagenResult` enumerates the observable outcomes of
`mutagen.File`, and cover blobs arrive as already-inspected `Artwork`
values, since no claim concerns the image decoding itself.
-/

/-- Sentinel marker for "more than one distinct value observed", source line 19. -/
def MIXED : String := "[Mixed]"

/-- Image format classification, source `class ImageFormat(Enum)`. -/
inductive ImageFormat where
  | UNKNOWN
  | PNG
  | JPEG
deriving DecidableEq, Repr

/-- One embedded image, source `class Artwork`.  `contents` is the hex digest of
the raw bytes (`cover.hex()` in the source), used only for equality. -/
structure Artwork where
  image_format : ImageFormat
  contents : String
  width : Nat
  height : Nat
deriving DecidableEq, Repr

/-- Per-file facts, source `class Song`.  Field defaults mirror `Song.__init__`. -/
structure Song where
  file_name : String
  purchased_by : Option String := none
  album_artist : Option String := none
  artist : Option String := none
  album : Option String := none
  sort_album_artist : Option String := none
  sort_artist : Option String := none
  sort_album : Option String := none
  compilation : Bool := false
  covers : List Artwork := []
  error : Option String := none
deriving DecidableEq, Repr

/-- Splitting of a character list on a separator character, modelling Python
`str.split(sep)`: the empty input yields one empty field. -/
def splitOnChar (c : Char) : List Char → List (List Char)
  | [] => [[]]
  | x :: xs =>
    let r := splitOnChar c xs
    if x = c then [] :: r
    else
      match r with
      | [] => [[x]]
      | y :: ys => (x :: y) :: ys

/-- Lower-casing by code points, modelling Python `str.lower()` on the ASCII
range the repository's tags use. -/
def toLowerStr (s : String) : String :=
  String.mk (s.data.map Char.toLower)

/-- Truncation to the first `n` characters, modelling Python `s[:n]`. -/
def takeStr (s : String) (n : Nat) : String :=
  String.mk (s.data.take n)

/-- Joining with a separator, modelling Python `sep.join(l)`. -/
def joinSep (sep : String) : List String → String
  | [] => ""
  | [x] => x
  | x :: xs => x ++ sep ++ joinSep sep xs

/-- Test that `pre` is a prefix of `s`, modelling Python `s.startswith(pre)`. -/
def startsWithStr (pre s : String) : Bool :=
  pre.data.isPrefixOf s.data

/-- Extension of a path per Python `pathlib.Path(p).suffix`: the last dot of the
final path component onwards, provided that dot is neither the component's
first nor last character; empty string otherwise. -/
def pathSuffix (p : String) : String :=
  let name := (splitOnChar '/' p.data).getLastD []
  let parts := splitOnChar '.' name
  match parts with
  | [] => ""
  | [_] => ""
  | ps =>
    let last := ps.getLastD []
    if last = [] then ""
    else if ps.length = 2 ∧ ps.headD [] = [] then ""
    else String.mk ('.' :: last)

/-- Source `Song.file_type`: `Path(self.file_name).suffix`, memoized but pure.
Note the source does NOT lower-case here. -/
def Song.file_type (s : Song) : String :=
  pathSuffix s.file_name

/-- Source `Song.has_cover`: `bool(self.covers)`. -/
def Song.has_cover (s : Song) : Bool :=
  !s.covers.isEmpty

/-- Truthiness of `song.error` as used by `Album.add` (`if song.error:`):
true iff the error is present and non-empty. -/
def songErrTruthy (s : Song) : Bool :=
  match s.error with
  | some e => !e.data.isEmpty
  | none => false

/-- The album aggregate, source `class Album`.  The memoized `_purchased_by`
cache is omitted: all derived attributes are pure functions of the two lists. -/
structure Album where
  artist_folder : String
  album_folder : String
  songs : List Song
  erroneous : List Song
deriving DecidableEq, Repr

/-- Source `Album.add`: route a song to `erroneous` iff its error is truthy. -/
def Album.add (a : Album) (song : Song) : Album :=
  if songErrTruthy song then { a with erroneous := a.erroneous ++ [song] }
  else { a with songs := a.songs ++ [song] }

/-- Source `_is_video`: membership of the file type in the video-extension list. -/
def _is_video (file_type : String) : Bool :=
  [".mov", ".m4v", ".mpeg", ".mpg", ".mp4"].contains file_type

/-- Strict lexicographic comparison of character lists by code points,
modelling Python string `<`. -/
def charListLt : List Char → List Char → Bool
  | [], [] => false
  | [], _ :: _ => true
  | _ :: _, [] => false
  | a :: as, b :: bs => if a < b then true else if b < a then false else charListLt as bs

/-- Ascending sort of strings by code points, modelling Python `sorted` on
strings.  Insertion sort with the strict lexicographic order. -/
def sortStrings (l : List String) : List String :=
  List.insertionSort (fun a b : String => charListLt a.data b.data = true) l

/-- Rendering of a possibly-absent value inside `_unique_values`:
Python `getter(song) or "[None]"` maps falsy values (absent or empty) to
the "[None]" placeholder. -/
def renderValue (v : Option String) : String :=
  match v with
  | some s => if s.data.isEmpty then "[None]" else s
  | none => "[None]"

/-- Source `_unique_values`: sorted, de-duplicated, comma-joined rendered values,
truncated to the default `max_length` of 100 characters (every call site uses
the default). -/
def _unique_values (songs : List Song) (getter : Song → Option String) : String :=
  takeStr (joinSep ", " (sortStrings ((songs.map (fun s => renderValue (getter s))).dedup))) 100

/-- Source `_unique_value_or_mixed`: empty string for an empty value set, the
single value (with Python `temp[0] or ""` collapsing an absent or empty lone
value to the empty string) for a singleton set, MIXED otherwise. -/
def _unique_value_or_mixed (values : List (Option String)) : String :=
  let temp := values.dedup
  if temp.isEmpty then ""
  else if temp.length = 1 then (temp.headD none).getD ""
  else MIXED

/-- Source `str(bool)` rendering used by `Album.compilation`. -/
def boolStr (b : Bool) : String :=
  if b then "True" else "False"

/-- Source property `Album.album_artist`. -/
def Album.album_artist (a : Album) : String :=
  _unique_value_or_mixed (a.songs.map Song.album_artist)

/-- Source property `Album.artist`. -/
def Album.artist (a : Album) : String :=
  _unique_value_or_mixed (a.songs.map Song.artist)

/-- Source property `Album.name`. -/
def Album.name (a : Album) : String :=
  _unique_value_or_mixed (a.songs.map Song.album)

/-- Source property `Album.sort_album_artist`. -/
def Album.sort_album_artist (a : Album) : String :=
  _unique_value_or_mixed (a.songs.map Song.sort_album_artist)

/-- Source property `Album.sort_artist`. -/
def Album.sort_artist (a : Album) : String :=
  _unique_value_or_mixed (a.songs.map Song.sort_artist)

/-- Source property `Album.sort_album`. -/
def Album.sort_album (a : Album) : String :=
  _unique_value_or_mixed (a.songs.map Song.sort_album)

/-- Source property `Album.compilation`: unique-or-mixed over `str(compilation)`
with the empty aggregate normalized to "False". -/
def Album.compilation (a : Album) : String :=
  let temp := _unique_value_or_mixed (a.songs.map (fun s => some (boolStr s.compilation)))
  if temp = "" then "False" else temp

/-- Source property `Album.file_type`: aggregated over songs AND erroneous. -/
def Album.file_type (a : Album) : String :=
  _unique_value_or_mixed ((a.songs ++ a.erroneous).map (fun s => some s.file_type))

/-- Canonical artwork sizes, source `IMAGE_SIZES`. -/
def IMAGE_SIZES : List (Nat × Nat) := [(600, 600), (1400, 1400)]

/-- First cover of a song, source `song.covers[0]`.  Only evaluated by the
artwork chain after it has established every song has exactly one cover, so
the default is never observable there. -/
def cover0 (s : Song) : Artwork :=
  s.covers.headD ⟨ImageFormat.UNKNOWN, "", 0, 0⟩

/-- Source property `Album.file_message`: the file-integrity rule chain.
Note the first rule's `all(...)` is vacuously true when `erroneous` is empty. -/
def Album.file_message (a : Album) : String :=
  if a.songs = [] ∧ a.erroneous.all (fun s => _is_video s.file_type) then ""
  else if a.erroneous ≠ [] then
    joinSep ", " (sortStrings ((a.erroneous.map (fun s => s.error.getD "")).dedup))
  else if a.songs = [] then "Empty album"
  else if a.file_type = MIXED then
    "Mixed file type: " ++ _unique_values a.songs (fun s => some s.file_type)
  else ""

/-- Source property `Album.artwork_message`: the artwork rule chain, first
match wins. -/
def Album.artwork_message (a : Album) : String :=
  if a.songs = [] then ""
  else if a.songs.all (fun s => !s.has_cover) then "No artwork"
  else if !(a.songs.all Song.has_cover) then "Some artwork missing"
  else if !(a.songs.all (fun s => s.covers.length = 1)) then "Multiple covers per file"
  else if 1 < ((a.songs.map (fun s => (cover0 s).contents)).dedup).length then "Multiple covers"
  else if 1 < ((a.songs.map (fun s => (cover0 s).image_format)).dedup).length then
    "Multiple image formats"
  else if a.songs.any (fun s => (cover0 s).image_format = ImageFormat.PNG) then "PNG artwork"
  else if a.songs.any (fun s => (cover0 s).image_format = ImageFormat.UNKNOWN) then
    "Unknown artwork format"
  else if a.songs.any (fun s => !(IMAGE_SIZES.contains ((cover0 s).width, (cover0 s).height))) then
    "Bad artwork size"
  else ""

/-- Lower-casing used by the case-only checks of the naming chain:
Python `v.lower() if v else None` (absent or empty collapses to absent). -/
def lowerIfPresent (v : Option String) : Option String :=
  match v with
  | some s => if s.data.isEmpty then none else some (toLowerStr s)
  | none => none

/-- Source local `album_artist_lower` of `Album.naming_message`. -/
def Album.album_artist_lower (a : Album) : String :=
  _unique_value_or_mixed (a.songs.map (fun s => lowerIfPresent s.album_artist))

/-- Source local `artist_lower` of `Album.naming_message`. -/
def Album.artist_lower (a : Album) : String :=
  _unique_value_or_mixed (a.songs.map (fun s => lowerIfPresent s.artist))

/-- Substring test, modelling Python `needle in haystack` on strings. -/
def strIn (needle hay : String) : Bool :=
  decide (needle.data <:+: hay.data)

/-- Short-circuiting model of `all(song.artist.startswith(album_artist) for song
in songs)`: `none` models the `AttributeError` raised when a song with artist
`None` is reached before the generator short-circuits on a `False`. -/
def allStartsWith (album_artist : String) : List Song → Option Bool
  | [] => some true
  | s :: rest =>
    match s.artist with
    | none => none
    | some art => if startsWithStr album_artist art then allStartsWith album_artist rest
                  else some false

/-- Short-circuiting model of `all(song.artist in album_artist for song in
songs)`; `none` models the `TypeError` raised on a `None` artist. -/
def allInAlbumArtist (album_artist : String) : List Song → Option Bool
  | [] => some true
  | s :: rest =>
    match s.artist with
    | none => none
    | some art => if strIn art album_artist then allInAlbumArtist album_artist rest
                  else some false

/-- Rules 8 to 12 of the naming chain (source lines 154 to 169), reached either
when the rule-7 guard is false or when rule 7 falls through via `pass`. -/
def Album.naming_tail (a : Album) : String :=
  if a.name = MIXED then "Mixed album: " ++ _unique_values a.songs Song.album
  else if a.sort_album = MIXED then
    "Mixed sort album: " ++ _unique_values a.songs Song.sort_album
  else if a.album_artist = MIXED then
    "Mixed album artist: " ++ _unique_values a.songs Song.album_artist
  else if a.sort_album_artist = MIXED then
    "Mixed sort album artist: " ++ _unique_values a.songs Song.sort_album_artist
  else if a.album_artist = "" then "No album artist"
  else ""

/-- Source property `Album.naming_message`.  Returns `none` when the Python
code would raise (the unguarded `song.artist.startswith` / `song.artist in`
of rule 7 applied to a song whose artist is absent); otherwise `some` of the
produced message. -/
def Album.naming_message (a : Album) : Option String :=
  if a.songs = [] then some ""
  else if a.compilation = MIXED then some "Some set as compilation"
  else if a.compilation = "True" ∧ a.album_artist ≠ "Various Artists" then
    some ("Unexpected album artist for compilation: " ++ _unique_values a.songs Song.album_artist)
  else if a.compilation = "True" ∧ 1 < a.songs.length ∧ a.artist ≠ MIXED then
    some "Expected multiple artists for compilation"
  else if a.compilation = "False" ∧ a.album_artist = "Various Artists" then
    some "Unexpected album artist for non-compilation"
  else if a.album_artist = MIXED ∧ a.album_artist_lower ≠ MIXED then
    some ("Artist differs by case only: " ++ _unique_values a.songs Song.album_artist)
  else if a.artist = MIXED ∧ a.artist_lower ≠ MIXED then
    some ("Album artist differs by case only: " ++ _unique_values a.songs Song.artist)
  else if a.compilation = "False" ∧ a.artist = MIXED then
    match allStartsWith a.album_artist a.songs with
    | none => none
    | some true => some a.naming_tail
    | some false =>
      match allInAlbumArtist a.album_artist a.songs with
      | none => none
      | some true => some a.naming_tail
      | some false =>
        some ("Expected single artist for non-compilation: " ++ _unique_values a.songs Song.artist)
  else some a.naming_tail

/-- Tag container handed back by a successful `mutagen.File` call.  Atom keys
(`aART`, `\xa9ART`, ..., `cpil`, `covr`, `apID`) and frame keys (`TPE2`, ...,
`TCMP`, `APIC:`) become optional fields; an absent field models the key being
absent from `audio.tags`.  Atom string values stand for `tags[key][0]`, frame
string values for `str(tags[key])`.  `TCMP` carries the integer that
`int(str(tags["TCMP"]))` yields, `cpil` the boolean stored in the atom, and
cover entries arrive as already-inspected `Artwork` values (the PIL decoding
of `_parse_covr_tag`/`_parse_apic_tag` is outside every claim). -/
structure Tags where
  aART : Option String := none
  artAtom : Option String := none
  albAtom : Option String := none
  soaa : Option String := none
  soar : Option String := none
  soal : Option String := none
  cpil : Option Bool := none
  TPE2 : Option String := none
  TOPE : Option String := none
  TPE1 : Option String := none
  TALB : Option String := none
  TSO2 : Option String := none
  TSOP : Option String := none
  TSOA : Option String := none
  TCMP : Option Int := none
  covr : Option (List Artwork) := none
  APIC : Option Artwork := none
  apID : Option (List String) := none
deriving DecidableEq, Repr

/-- Observable outcomes of the external `mutagen.File(path)` call:
`headerNotFound msg` models a raised `mutagen.mp3.HeaderNotFoundError` whose
`str()` is `msg` (the only exception type the source catches), `noFile`
models `mutagen.File` returning `None` (file type not recognized), and `ok`
a successfully parsed container with its tags. -/
inductive MutagenResult where
  | headerNotFound (msg : String)
  | noFile
  | ok (tags : Tags)
deriving DecidableEq, Repr

/-- Per-field atom-to-frame fallback of `_parse_song`: the frame value is
consulted exactly when the atom-sourced value is Python-falsy (absent or the
empty string) and the frame key is present. -/
def fallback (atom frame : Option String) : Option String :=
  match atom with
  | some s =>
    if s.data.isEmpty then
      match frame with
      | some f => some f
      | none => some s
    else some s
  | none => frame

/-- Source `_parse_song` given the outcome of the `mutagen.File` call.
An `Except.error` models an uncaught exception: the `assert audio is not
None` on a `None` result, and the `assert len(audio.tags["apID"]) == 1` on a
purchaser-id atom whose entry count is not one.  Note that `TCMP`, unlike
every other frame, is applied unconditionally (source line 418), overwriting
any `cpil` value. -/
def _parse_song (file : String) (audio : MutagenResult) : Except String Song :=
  match audio with
  | MutagenResult.headerNotFound msg => Except.ok { file_name := file, error := some msg }
  | MutagenResult.noFile => Except.error "AssertionError: audio is not None"
  | MutagenResult.ok tags =>
    let song : Song :=
      { file_name := file
        album_artist := fallback tags.aART tags.TPE2
        artist := fallback (fallback tags.artAtom tags.TOPE) tags.TPE1
        album := fallback tags.albAtom tags.TALB
        sort_album_artist := fallback tags.soaa tags.TSO2
        sort_artist := fallback tags.soar tags.TSOP
        sort_album := fallback tags.soal tags.TSOA
        compilation :=
          match tags.TCMP with
          | some n => n != 0
          | none => tags.cpil.getD false
        covers :=
          match tags.covr with
          | some cs => cs
          | none =>
            match tags.APIC with
            | some c => [c]
            | none => [] }
    match tags.apID with
    | none => Except.ok song
    | some l =>
      if l.length = 1 then Except.ok { song with purchased_by := l.head? }
      else Except.error "AssertionError: len(apID) == 1"

/-- Whether a parse outcome is a fatal (uncaught) failure. -/
def isFatal (r : Except String Song) : Bool :=
  match r with
  | Except.ok _ => false
  | Except.error _ => true

/-- Supported audio extensions of `_parse_album` (compared lower-cased). -/
def SUPPORTED_SUFFIXES : List String := [".m4a", ".m4p", ".mp3"]

/-- Body of the `for file in sorted(files)` loop of `_parse_album`: skip hidden
files and PDFs, record unsupported file types as synthetic erroneous songs
(named by the joined path, as in the source), and otherwise parse the file,
propagating any fatal extraction failure. -/
def processFile (subdir : String) (mutagenFile : String → MutagenResult)
    (album : Album) (file : String) : Except String Album :=
  if startsWithStr "." file then Except.ok album
  else if toLowerStr (pathSuffix file) = ".pdf" then Except.ok album
  else if !(SUPPORTED_SUFFIXES.contains (toLowerStr (pathSuffix file))) then
    let joined := subdir ++ "/" ++ file
    Except.ok (album.add
      { file_name := joined, error := some ("Unsupported file type: " ++ pathSuffix joined) })
  else
    match _parse_song file (mutagenFile (subdir ++ "/" ++ file)) with
    | Except.ok song => Except.ok (album.add song)
    | Except.error e => Except.error e

/-- Source `_parse_album`.  The folder identity derived in the source from
`Path(subdir).absolute().parts[-2:]` is filesystem-dependent, so the artist
and album folder names are explicit parameters here; `mutagenFile` is the
external-library oracle giving the outcome of `mutagen.File` per path. -/
def _parse_album (subdir artist_name album_name : String) (files : List String)
    (mutagenFile : String → MutagenResult) : Except String Album :=
  (sortStrings files).foldlM (processFile subdir mutagenFile)
    { artist_folder := artist_name, album_folder := album_name, songs := [], erroneous := [] }

/-- Shape of a parse-album outcome used by concrete evaluations: the counts of
parsed and erroneous songs, or `none` on fatal failure. -/
def resultShape (r : Except String Album) : Option (Nat × Nat) :=
  match r with
  | Except.ok a => some (a.songs.length, a.erroneous.length)
  | Except.error _ => none

/-- Files of the listing that the `_parse_album` loop actually processes:
neither hidden nor PDF. -/
def keptFile (f : String) : Bool :=
  !(startsWithStr "." f) && !(toLowerStr (pathSuffix f) == ".pdf")

/-! ## Concrete inputs used by counterexamples, code-bug evaluations and witnesses -/

/-- Tag set carrying both the compilation atom (true) and a TCMP frame (0). -/
def tagsBothCompilation : Tags := { cpil := some true, TCMP := some 0 }

/-- Tag set with only a TCMP frame. -/
def tagsTcmpOnly : Tags := { TCMP := some 1 }

/-- Tag set whose purchaser-id atom is present but empty. -/
def tagsApEmpty : Tags := { apID := some [] }

/-- A parsed song with no artist tag. -/
def songNoArtist : Song := { file_name := "a.mp3" }

/-- A parsed song whose artist tag is "X". -/
def songArtistX : Song := { file_name := "b.mp3", artist := some "X" }

/-- Album of two real parsed songs, one with artist "X" and one with no artist,
no album-artist tags, compilation unset on both: reachable from a folder of
two mp3 files. -/
def crashAlbum : Album :=
  { artist_folder := "A", album_folder := "B", songs := [songNoArtist, songArtistX],
    erroneous := [] }

/-! ## Claim theorems -/

/-- C1 counterexample: for an album with zero songs and zero erroneous files the
file-message chain returns the empty string, not "Empty album" as claimed —
the chain's first rule (`not songs and all(is_video ...)`) fires vacuously
on the empty `erroneous` list. -/
theorem file_message_empty_album_counterexample :
    Album.file_message
      { artist_folder := "Artist", album_folder := "Albm", songs := [], erroneous := [] } = "" ∧
    ((Album.file_message
      { artist_folder := "Artist", album_folder := "Albm", songs := [], erroneous := [] }
        == "Empty album") = false) :=
  ⟨rfl, by decide⟩

/-- C1 amended: for every album built with zero songs and zero erroneous files,
all three message chains return the empty string (the file-message chain via
its vacuously-true first rule, never reaching the "Empty album" rule). -/
theorem empty_album_all_messages_empty (af bf : String) :
    Album.file_message { artist_folder := af, album_folder := bf, songs := [], erroneous := [] }
      = "" ∧
    Album.artwork_message { artist_folder := af, album_folder := bf, songs := [], erroneous := [] }
      = "" ∧
    Album.naming_message { artist_folder := af, album_folder := bf, songs := [], erroneous := [] }
      = some "" :=
  ⟨rfl, rfl, rfl⟩

/-- C2 counterexample: a file bearing both the compilation atom (set to true)
and a TCMP frame (integer 0) yields `compilation = false` — the value comes
from the TCMP frame, not from the atom as the claim states. -/
theorem tcmp_overrides_cpil_counterexample :
    tagsBothCompilation.cpil = some true ∧
    Except.map Song.compilation (_parse_song "f.mp3" (MutagenResult.ok tagsBothCompilation))
      = Except.ok false :=
  ⟨rfl, rfl⟩

/-- Successful-assertion precondition on the purchaser-id atom: absent, or
present with exactly one entry. -/
def apOk (tags : Tags) : Prop :=
  match tags.apID with
  | none => True
  | some l => l.length = 1

/-- C2 amended: the TCMP frame, when present, always determines `compilation`
(parsed as integer-nonzero), overwriting any compilation-atom value; the atom
value (default false) is used only when TCMP is absent.  The `apOk`
hypothesis keeps the purchaser-id assertion from aborting extraction. -/
theorem compilation_tcmp_priority (file : String) (tags : Tags) (hap : apOk tags) :
    (∀ n : Int, tags.TCMP = some n →
      Except.map Song.compilation (_parse_song file (MutagenResult.ok tags))
        = Except.ok (n != 0)) ∧
    (tags.TCMP = none →
      Except.map Song.compilation (_parse_song file (MutagenResult.ok tags))
        = Except.ok (tags.cpil.getD false)) := by
  unfold apOk at hap
  cases hid : tags.apID with
  | none =>
    rw [hid] at hap
    constructor
    · intro n htcmp
      simp [_parse_song, hid, htcmp, Except.map]
    · intro htcmp
      simp [_parse_song, hid, htcmp, Except.map]
  | some l =>
    rw [hid] at hap
    constructor
    · intro n htcmp
      simp [_parse_song, hid, htcmp, hap, Except.map]
    · intro htcmp
      simp [_parse_song, hid, htcmp, hap, Except.map]

/-- C2 witness: a file with only a TCMP frame of 1 comes out flagged as a
compilation. -/
theorem compilation_tcmp_priority_witness :
    Except.map Song.compilation (_parse_song "f.mp3" (MutagenResult.ok tagsTcmpOnly))
      = Except.ok true :=
  (compilation_tcmp_priority "f.mp3" tagsTcmpOnly trivial).1 1 rfl

/-- C3 confirmed: the unique-or-mixed reduction returns the empty string on the
empty sequence, the element itself on a one-element sequence (a lone absent
value rendering as the empty string, absent values participating in equality
as one group), and the MIXED sentinel on any sequence containing two
distinct values. -/
theorem unique_value_or_mixed_spec :
    _unique_value_or_mixed [] = "" ∧
    (∀ s : String, _unique_value_or_mixed [some s] = s) ∧
    _unique_value_or_mixed [none] = "" ∧
    (∀ (l : List (Option String)) (a b : Option String),
      a ∈ l → b ∈ l → a ≠ b → _unique_value_or_mixed l = MIXED) := by
  refine ⟨rfl, fun s => ?_, by decide, fun l a b ha hb hne => ?_⟩
  · unfold _unique_value_or_mixed
    rw [List.dedup_cons_of_not_mem (by simp), List.dedup_nil]
    rfl
  · have ha' : a ∈ l.dedup := List.mem_dedup.mpr ha
    have hb' : b ∈ l.dedup := List.mem_dedup.mpr hb
    have h1 : l.dedup.isEmpty = false := by
      cases hd : l.dedup with
      | nil => rw [hd] at ha'; cases ha'
      | cons x xs => rfl
    have h2 : ¬(l.dedup.length = 1) := by
      intro hlen
      obtain ⟨x, hx⟩ := List.length_eq_one.mp hlen
      rw [hx] at ha' hb'
      simp only [List.mem_singleton] at ha' hb'
      exact hne (ha'.trans hb'.symm)
    simp [_unique_value_or_mixed, h1, h2]

/-- C3 witness: the MIXED branch applied to a concrete two-valued sequence. -/
theorem unique_value_or_mixed_spec_witness :
    _unique_value_or_mixed [some "a", some "b"] = MIXED :=
  unique_value_or_mixed_spec.2.2.2 [some "a", some "b"] (some "a") (some "b")
    (by decide) (by decide) (by decide)

/-- C6 counterexample: when the library cannot recognize the container at all
(`mutagen.File` returns `None`), extraction does NOT return a recovered
`SongFacts` — it dies on the `assert audio is not None` assertion, a fatal
error.  Only `HeaderNotFoundError` is recovered. -/
theorem parse_song_nofile_fatal_counterexample :
    isFatal (_parse_song "x.m4a" MutagenResult.noFile) = true := by
  decide

/-- C6 amended: a `HeaderNotFoundError` from the library is recovered as a
`SongFacts` carrying only the file name and the exception text as error; a
`None` result from the library (unrecognizable container) aborts fatally on
the `assert audio is not None` assertion instead of being recovered. -/
theorem parse_song_error_recovery :
    (∀ (file msg : String), _parse_song file (MutagenResult.headerNotFound msg)
      = Except.ok { file_name := file, error := some msg }) ∧
    (∀ file : String, _parse_song file MutagenResult.noFile
      = Except.error "AssertionError: audio is not None") :=
  ⟨fun _ _ => rfl, fun _ => rfl⟩

/-- C7 counterexample: a purchaser-id atom present with zero entries also trips
the fatal assertion (`assert len(...) == 1` fails on length 0), contradicting
the claim that zero entries complete without the assertion firing. -/
theorem apid_empty_assertion_counterexample :
    tagsApEmpty.apID = some [] ∧
    isFatal (_parse_song "f.m4a" (MutagenResult.ok tagsApEmpty)) = true :=
  ⟨rfl, by decide⟩

/-- C7 amended: on a successfully opened container, extraction is fatal exactly
when the purchaser-id atom is present with an entry count different from
one; an absent atom or exactly one entry always completes. -/
theorem apid_assertion_iff (file : String) (tags : Tags) :
    isFatal (_parse_song file (MutagenResult.ok tags)) = true ↔
      ∃ l, tags.apID = some l ∧ l.length ≠ 1 := by
  cases hid : tags.apID with
  | none => simp [_parse_song, isFatal, hid]
  | some l =>
    by_cases hl : l.length = 1
    · simp [_parse_song, isFatal, hid, hl]
    · simp [_parse_song, isFatal, hid, hl]

/-- C9 counterexample: the file type is the extension exactly as written, not
lower-cased, and two names whose extensions differ only by letter case yield
different `file_type` values. -/
theorem file_type_case_counterexample :
    Song.file_type { file_name := "01 Track.MP3" } = ".MP3" ∧
    ((Song.file_type { file_name := "01 Track.MP3" }
      == toLowerStr (pathSuffix "01 Track.MP3")) = false) ∧
    ((Song.file_type { file_name := "a.MP3" } == Song.file_type { file_name := "a.mp3" })
      = false) :=
  ⟨rfl, by decide, by decide⟩

/-- C9 amended: `file_type` is the file name's extension (pathlib suffix rule)
with its letter case preserved; names differing only in extension case keep
their distinct extensions. -/
theorem file_type_preserves_case :
    (∀ s : Song, Song.file_type s = pathSuffix s.file_name) ∧
    Song.file_type { file_name := "x.MP3" } = ".MP3" ∧
    Song.file_type { file_name := "x.mp3" } = ".mp3" :=
  ⟨fun _ => rfl, by decide, by decide⟩

/-- C10 evaluation at the failing input: on a reachable album (two parsed mp3
songs, neither marked compilation, no album artists, artists absent and "X")
the naming chain reaches rule 7 and dies with an `AttributeError` — modelled
as `none` — instead of returning a string. -/
theorem naming_message_none_artist_fatal :
    Album.naming_message crashAlbum = none := by
  decide

/-! ## C4: artwork chain, hash check precedes format and size checks -/

/-- C4 confirmed: an album of two songs, each with exactly one JPEG cover at
(600, 600) but with differing content hashes, is classified "Multiple
covers": the hash check fires before the format and size checks. -/
theorem artwork_message_multiple_covers (af bf : String) (err : List Song)
    (s1 s2 : Song) (c1 c2 : Artwork)
    (h1 : s1.covers = [c1]) (h2 : s2.covers = [c2])
    (hf1 : c1.image_format = ImageFormat.JPEG) (hf2 : c2.image_format = ImageFormat.JPEG)
    (hw1 : c1.width = 600) (hh1 : c1.height = 600)
    (hw2 : c2.width = 600) (hh2 : c2.height = 600)
    (hne : c1.contents ≠ c2.contents) :
    Album.artwork_message
      { artist_folder := af, album_folder := bf, songs := [s1, s2], erroneous := err }
      = "Multiple covers" := by
  have hc1 : cover0 s1 = c1 := by rw [cover0, h1]; rfl
  have hc2 : cover0 s2 = c2 := by rw [cover0, h2]; rfl
  have h2d : ([c2.contents] : List String).dedup = [c2.contents] := by
    rw [List.dedup_cons_of_not_mem (List.not_mem_nil _), List.dedup_nil]
  have hdedup : ([c1.contents, c2.contents] : List String).dedup = [c1.contents, c2.contents] := by
    rw [List.dedup_cons_of_not_mem (by simpa using hne), h2d]
  simp [Album.artwork_message, Song.has_cover, h1, h2, hc1, hc2, hdedup]

/-- Cover used by the C4 witness, hash "aa". -/
def coverA : Artwork := { image_format := ImageFormat.JPEG, contents := "aa", width := 600, height := 600 }

/-- Cover used by the C4 witness, hash "bb". -/
def coverB : Artwork := { image_format := ImageFormat.JPEG, contents := "bb", width := 600, height := 600 }

/-- Song holding cover "aa". -/
def songCoverA : Song := { file_name := "1.m4a", covers := [coverA] }

/-- Song holding cover "bb". -/
def songCoverB : Song := { file_name := "2.m4a", covers := [coverB] }

/-- C4 witness: the two-song album with distinct JPEG covers at (600, 600). -/
theorem artwork_message_multiple_covers_witness :
    Album.artwork_message
      { artist_folder := "A"
        album_folder := "B"
        songs := [songCoverA, songCoverB]
        erroneous := [] } = "Multiple covers" :=
  artwork_message_multiple_covers "A" "B" [] songCoverA songCoverB coverA coverB
    rfl rfl rfl rfl rfl rfl rfl rfl (by decide)

/-! ## C5: naming rule 7, the prefix and substring suppression conditions -/

/-- When every artist is present, the short-circuiting generator of the
prefix test evaluates to the plain conjunction over the song list. -/
theorem allStartsWith_eq (aa : String) (l : List Song)
    (h : ∀ s ∈ l, (s.artist).isSome = true) :
    allStartsWith aa l = some (l.all (fun s => startsWithStr aa ((s.artist).getD ""))) := by
  induction l with
  | nil => rfl
  | cons s rest ih =>
    obtain ⟨art, hart⟩ := Option.isSome_iff_exists.mp (h s (List.mem_cons_self s rest))
    have ih' := ih (fun t ht => h t (List.mem_cons_of_mem s ht))
    by_cases hp : startsWithStr aa art = true
    · simp [allStartsWith, hart, ih', hp]
    · have hp' : startsWithStr aa art = false := by
        cases hb : startsWithStr aa art
        · rfl
        · exact absurd hb hp
      simp [allStartsWith, hart, hp']

/-- When every artist is present, the short-circuiting generator of the
substring test evaluates to the plain conjunction over the song list. -/
theorem allInAlbumArtist_eq (aa : String) (l : List Song)
    (h : ∀ s ∈ l, (s.artist).isSome = true) :
    allInAlbumArtist aa l = some (l.all (fun s => strIn ((s.artist).getD "") aa)) := by
  induction l with
  | nil => rfl
  | cons s rest ih =>
    obtain ⟨art, hart⟩ := Option.isSome_iff_exists.mp (h s (List.mem_cons_self s rest))
    have ih' := ih (fun t ht => h t (List.mem_cons_of_mem s ht))
    by_cases hp : strIn art aa = true
    · simp [allInAlbumArtist, hart, ih', hp]
    · have hp' : strIn art aa = false := by
        cases hb : strIn art aa
        · rfl
        · exact absurd hb hp
      simp [allInAlbumArtist, hart, hp']

/-- C5 confirmed: on a non-empty album whose compilation aggregate is "False"
and artist aggregate is MIXED, with no earlier naming rule matching (album
artist neither "Various Artists" nor case-only mixed, artist not case-only
mixed) and every song's artist present, rule 7 produces no message — the
chain proceeds to the trailing rules — exactly when every song's artist
starts with the album-artist aggregate, or every song's artist is a
substring of it; otherwise the chain answers "Expected single artist for
non-compilation: " followed by the distinct artist values. -/
theorem naming_rule_seven_spec (a : Album)
    (hs : ¬(a.songs = []))
    (hc : a.compilation = "False")
    (ha : a.artist = MIXED)
    (hv : ¬(a.album_artist = "Various Artists"))
    (h5 : ¬(a.album_artist = MIXED ∧ ¬(a.album_artist_lower = MIXED)))
    (h6 : a.artist_lower = MIXED)
    (hall : ∀ s ∈ a.songs, (s.artist).isSome = true) :
    ((∀ s ∈ a.songs, startsWithStr a.album_artist ((s.artist).getD "") = true) ∨
     (∀ s ∈ a.songs, strIn ((s.artist).getD "") a.album_artist = true) →
      a.naming_message = some a.naming_tail) ∧
    (¬((∀ s ∈ a.songs, startsWithStr a.album_artist ((s.artist).getD "") = true) ∨
       (∀ s ∈ a.songs, strIn ((s.artist).getD "") a.album_artist = true)) →
      a.naming_message = some ("Expected single artist for non-compilation: "
        ++ _unique_values a.songs Song.artist)) := by
  have hnm : a.naming_message =
      match allStartsWith a.album_artist a.songs with
      | none => none
      | some true => some a.naming_tail
      | some false =>
        match allInAlbumArtist a.album_artist a.songs with
        | none => none
        | some true => some a.naming_tail
        | some false =>
          some ("Expected single artist for non-compilation: "
            ++ _unique_values a.songs Song.artist) := by
    unfold Album.naming_message
    rw [if_neg hs]
    rw [if_neg (fun h => absurd (hc.symm.trans h) (by decide))]
    rw [if_neg (fun h => absurd (hc.symm.trans h.1) (by decide))]
    rw [if_neg (fun h => absurd (hc.symm.trans h.1) (by decide))]
    rw [if_neg (fun h => hv h.2)]
    rw [if_neg h5]
    rw [if_neg (fun h => h.2 h6)]
    rw [if_pos ⟨hc, ha⟩]
  constructor
  · intro hsup
    rcases hsup with hpre | hsub
    · have hp : a.songs.all (fun s => startsWithStr a.album_artist ((s.artist).getD "")) = true :=
        List.all_eq_true.mpr hpre
      rw [hnm, allStartsWith_eq _ _ hall, hp]
    · cases hp : a.songs.all (fun s => startsWithStr a.album_artist ((s.artist).getD "")) with
      | true => rw [hnm, allStartsWith_eq _ _ hall, hp]
      | false =>
        have hq : a.songs.all (fun s => strIn ((s.artist).getD "") a.album_artist) = true :=
          List.all_eq_true.mpr hsub
        rw [hnm, allStartsWith_eq _ _ hall, hp, allInAlbumArtist_eq _ _ hall, hq]
  · intro hns
    obtain ⟨hnA, hnB⟩ := not_or.mp hns
    have hp : a.songs.all (fun s => startsWithStr a.album_artist ((s.artist).getD "")) = false := by
      cases hx : a.songs.all (fun s => startsWithStr a.album_artist ((s.artist).getD "")) with
      | false => rfl
      | true => exact absurd (List.all_eq_true.mp hx) hnA
    have hq : a.songs.all (fun s => strIn ((s.artist).getD "") a.album_artist) = false := by
      cases hx : a.songs.all (fun s => strIn ((s.artist).getD "") a.album_artist) with
      | false => rfl
      | true => exact absurd (List.all_eq_true.mp hx) hnB
    rw [hnm, allStartsWith_eq _ _ hall, hp, allInAlbumArtist_eq _ _ hall, hq]

/-- Song used by the C5 witness: artist and album artist both "Placebo". -/
def songPlacebo : Song :=
  { file_name := "1.m4a", artist := some "Placebo", album_artist := some "Placebo" }

/-- Song used by the C5 witness: a featuring artist over the same album artist. -/
def songPlaceboFeat : Song :=
  { file_name := "2.m4a", artist := some "Placebo feat. David Bowie",
    album_artist := some "Placebo" }

/-- Album used by the C5 witness. -/
def placeboAlbum : Album :=
  { artist_folder := "Placebo"
    album_folder := "X"
    songs := [songPlacebo, songPlaceboFeat]
    erroneous := [] }

/-- C5 witness: mixed artists all prefixed by the album artist are suppressed;
the chain falls through to the trailing rules, which also find nothing. -/
theorem naming_rule_seven_spec_witness :
    Album.naming_message placeboAlbum = some "" := by
  have h := naming_rule_seven_spec placeboAlbum (by decide) (by decide) (by decide)
    (by decide) (by decide) (by decide) (by decide)
  rw [h.1 (Or.inl (by decide))]
  decide

/-! ## C8: the album-building partition of a folder's files -/

/-- Adding a song grows exactly one of the two lists by one. -/
theorem add_len (a : Album) (s : Song) :
    (a.add s).songs.length + (a.add s).erroneous.length
      = a.songs.length + a.erroneous.length + 1 := by
  unfold Album.add
  split
  · simp only [List.length_append, List.length_cons, List.length_nil]
    omega
  · simp only [List.length_append, List.length_cons, List.length_nil]
    omega

/-- Adding a song preserves the error-flag discipline: `songs` holds only
error-free facts and `erroneous` only error-bearing ones. -/
theorem add_invariants (a : Album) (s : Song)
    (hsongs : ∀ t ∈ a.songs, songErrTruthy t = false)
    (herr : ∀ t ∈ a.erroneous, songErrTruthy t = true) :
    (∀ t ∈ (a.add s).songs, songErrTruthy t = false) ∧
    (∀ t ∈ (a.add s).erroneous, songErrTruthy t = true) := by
  unfold Album.add
  split
  next h =>
    refine ⟨hsongs, fun t ht => ?_⟩
    rcases List.mem_append.mp ht with h1 | h1
    · exact herr t h1
    · rw [List.mem_singleton.mp h1]; exact h
  next h =>
    have h' : songErrTruthy s = false := by
      cases hb : songErrTruthy s
      · rfl
      · exact absurd hb h
    refine ⟨fun t ht => ?_, herr⟩
    rcases List.mem_append.mp ht with h1 | h1
    · exact hsongs t h1
    · rw [List.mem_singleton.mp h1]; exact h'

/-- One loop step of `_parse_album`: a processed (non-hidden, non-PDF) file adds
exactly one entry to one of the two lists; a skipped file adds none; and the
error-flag discipline is preserved. -/
theorem processFile_step (subdir : String) (mf : String → MutagenResult) (a a' : Album)
    (f : String) (h : processFile subdir mf a f = Except.ok a') :
    (a'.songs.length + a'.erroneous.length
      = a.songs.length + a.erroneous.length + (if keptFile f then 1 else 0)) ∧
    ((∀ t ∈ a.songs, songErrTruthy t = false) → (∀ t ∈ a.erroneous, songErrTruthy t = true) →
      (∀ t ∈ a'.songs, songErrTruthy t = false) ∧ (∀ t ∈ a'.erroneous, songErrTruthy t = true)) := by
  unfold processFile at h
  by_cases h1 : startsWithStr "." f = true
  · rw [if_pos h1] at h
    injection h with h
    subst h
    refine ⟨?_, fun hs he => ⟨hs, he⟩⟩
    simp [keptFile, h1]
  · rw [if_neg h1] at h
    have h1' : startsWithStr "." f = false := by
      cases hb : startsWithStr "." f
      · rfl
      · exact absurd hb h1
    by_cases h2 : toLowerStr (pathSuffix f) = ".pdf"
    · rw [if_pos h2] at h
      injection h with h
      subst h
      refine ⟨?_, fun hs he => ⟨hs, he⟩⟩
      simp [keptFile, h1', h2]
    · rw [if_neg h2] at h
      have hkept : keptFile f = true := by
        simp [keptFile, h1', h2]
      by_cases h3 : (SUPPORTED_SUFFIXES.contains (toLowerStr (pathSuffix f))) = true
      · rw [h3] at h
        simp only [Bool.not_true, Bool.false_eq_true, if_false] at h
        cases hr : _parse_song f (mf (subdir ++ "/" ++ f)) with
        | error e => rw [hr] at h; cases h
        | ok song =>
          rw [hr] at h
          injection h with h
          subst h
          exact ⟨by rw [add_len, hkept]; simp, fun hs he => add_invariants a song hs he⟩
      · have h3' : (SUPPORTED_SUFFIXES.contains (toLowerStr (pathSuffix f))) = false := by
          cases hb : SUPPORTED_SUFFIXES.contains (toLowerStr (pathSuffix f))
          · rfl
          · exact absurd hb h3
        rw [h3'] at h
        simp only [Bool.not_false, if_true] at h
        injection h with h
        subst h
        refine ⟨by rw [add_len, hkept]; simp, fun hs he => add_invariants a _ hs he⟩

/-- Loop invariant of the `_parse_album` fold: on success the total entry count
grows by the number of processed files and the error-flag discipline carries
from the initial accumulator to the result. -/
theorem parse_fold (subdir : String) (mf : String → MutagenResult) (fs : List String) :
    ∀ acc res : Album, List.foldlM (processFile subdir mf) acc fs = Except.ok res →
      (res.songs.length + res.erroneous.length
        = acc.songs.length + acc.erroneous.length + fs.countP keptFile) ∧
      ((∀ t ∈ acc.songs, songErrTruthy t = false) →
       (∀ t ∈ acc.erroneous, songErrTruthy t = true) →
        (∀ t ∈ res.songs, songErrTruthy t = false) ∧
        (∀ t ∈ res.erroneous, songErrTruthy t = true)) := by
  induction fs with
  | nil =>
    intro acc res h
    injection h with h
    subst h
    exact ⟨by simp, fun hs he => ⟨hs, he⟩⟩
  | cons f fs ih =>
    intro acc res h
    rw [List.foldlM_cons] at h
    cases hp : processFile subdir mf acc f with
    | error e => rw [hp] at h; cases h
    | ok a1 =>
      rw [hp] at h
      have hbind : List.foldlM (processFile subdir mf) a1 fs = Except.ok res := h
      obtain ⟨hc1, hi1⟩ := processFile_step subdir mf acc a1 f hp
      obtain ⟨hc2, hi2⟩ := ih a1 res hbind
      constructor
      · rw [hc2, hc1, List.countP_cons]
        omega
      · intro hs he
        obtain ⟨hs1, he1⟩ := hi1 hs he
        exact hi2 hs1 he1

/-- C8 counterexample: a folder listing consisting of one PDF file builds an
album in which that file appears in neither `songs` nor `erroneous` — it is
silently skipped, against the claimed every-file partition.  (Hidden files,
skipped the same way, give further counterexamples.) -/
theorem parse_album_pdf_skipped_counterexample :
    (["booklet.pdf"] : List String).length = 1 ∧
    resultShape (_parse_album "d" "A" "B" ["booklet.pdf"] (fun _ => MutagenResult.noFile))
      = some (0, 0) :=
  ⟨rfl, by decide⟩

/-- C8 amended: when album building completes without a fatal extraction error,
every non-hidden, non-PDF file of the listing lands in exactly one of
`songs` or `erroneous` (entry counts add up to the processed-file count; no
processed file is dropped or duplicated), `songs` holds only error-free
facts and `erroneous` only error-bearing ones — so the two sequences are
disjoint.  Hidden files and PDFs are skipped by design. -/
theorem parse_album_partition (subdir an bn : String) (files : List String)
    (mf : String → MutagenResult) (a : Album)
    (h : _parse_album subdir an bn files mf = Except.ok a) :
    a.songs.length + a.erroneous.length = files.countP keptFile ∧
    (∀ t ∈ a.songs, songErrTruthy t = false) ∧
    (∀ t ∈ a.erroneous, songErrTruthy t = true) := by
  unfold _parse_album at h
  obtain ⟨hc, hi⟩ := parse_fold subdir mf (sortStrings files) _ a h
  have hperm : (sortStrings files).countP keptFile = files.countP keptFile :=
    (List.perm_insertionSort _ files).countP_eq keptFile
  obtain ⟨hs, he⟩ := hi (by simp) (by simp)
  refine ⟨?_, hs, he⟩
  rw [hc, hperm]
  simp

/-- Album reached by the C8 witness: one unreadable mp3, nothing else kept. -/
def errAlbumB : Album :=
  { artist_folder := "A"
    album_folder := "B"
    songs := []
    erroneous := [{ file_name := "x.mp3", error := some "bad" }] }

/-- C8 witness: of a listing with a hidden file, a PDF and one mp3 that fails
to parse, exactly the one processed file is accounted for. -/
theorem parse_album_partition_witness :
    errAlbumB.songs.length + errAlbumB.erroneous.length
      = ([".DS_Store", "b.pdf", "x.mp3"] : List String).countP keptFile :=
  (parse_album_partition "d" "A" "B" [".DS_Store", "b.pdf", "x.mp3"]
    (fun _ => MutagenResult.headerNotFound "bad") errAlbumB (by rfl)).1
